import Mathlib

/-!
Shallow embedding of the `learning_loop_node` trainer/detector core.

The embedding follows the newest generation of the source
(`trainer/trainer_logic.py`, `detector/detector_node.py`).  Modules of this
repository that are referenced by that code but are not present under `src/`
(`trainer/trainer_logic_abstraction.py`, `trainer/io_helpers.py`,
`helpers/misc.py`, the newer `data_classes` package) are modelled from the
specification; every such definition carries a doc comment starting with
`Modelled from the spec:`.

Machine-level details that a shallow embedding cannot carry (wall-clock
polling intervals, the OS subprocess itself, the socket transport) are
abstracted into explicit parameters of the embedded functions; the doc
comments say which parameter stands for which effect.
-/

namespace LearningLoopNode

/-- Modelled from the spec: the `TrainerState` enumeration of
`data_classes` (absent from src), §3 of the spec, in its stated order. -/
inductive TrainerState where
  | Initialized
  | DataDownloading
  | DataDownloaded
  | TrainModelDownloading
  | TrainModelDownloaded
  | TrainingRunning
  | TrainingFinished
  | ConfusionMatrixSyncing
  | ConfusionMatrixSynced
  | TrainModelUploading
  | TrainModelUploaded
  | Detecting
  | Detected
  | DetectionUploading
  | ReadyForCleanup
deriving Repr, DecidableEq

/-- Hex-digit test used by the uuid format check. -/
def isHexDigit (c : Char) : Bool :=
  (('0' ≤ c) && (c ≤ '9')) || (('a' ≤ c) && (c ≤ 'f')) || (('A' ≤ c) && (c ≤ 'F'))

/-- Modelled from the spec: `is_valid_uuid4` of `helpers/misc.py` (absent from
src).  Per §3 it is "the single predicate used to distinguish loop-provided
base model from pretrained starting-point name".  The sibling test
`test_downloading_failed` feeds the all-zero uuid and expects the download
branch to be taken, so the predicate accepts any canonically formatted
8-4-4-4-12 hex string and does not inspect the version nibble. -/
def is_valid_uuid4 (s : String) : Bool :=
  let cs := s.toList
  cs.length == 36 &&
  (List.range 36).all (fun i =>
    if i = 8 ∨ i = 13 ∨ i = 18 ∨ i = 23 then cs.getD i ' ' == '-'
    else isHexDigit (cs.getD i ' '))

/-- Context `{organization, project}` (§3 of the spec; `Context` data class
is absent from src). -/
structure Context where
  organization : String
  project : String
deriving Repr, DecidableEq

/-- The durable `Training` record, fields per §3 of the spec and their uses
in `trainer_logic.py` (the newer `data_classes.Training` is absent from src). -/
structure Training where
  id : String
  context : Context
  training_number : Nat
  base_model_id : String
  training_state : TrainerState
  model_id_for_detecting : Option String
  training_folder : String
deriving Repr, DecidableEq

/-- Modelled from the spec: the per-node current-error map of §7 ("a single
current-error map is kept on the node", keyed by state name); the `Errors`
class lives in `trainer_logic_abstraction.py`, absent from src.  Represented
as an association list, newest binding first. -/
structure Errors where
  errors : List (String × String)
deriving Repr, DecidableEq

/-- Store `value` under `key`, replacing any previous binding. -/
def Errors.set (e : Errors) (key value : String) : Errors :=
  ⟨(key, value) :: e.errors.filter (fun p => p.1 ≠ key)⟩

/-- Remove the binding for `key`. -/
def Errors.reset (e : Errors) (key : String) : Errors :=
  ⟨e.errors.filter (fun p => p.1 ≠ key)⟩

/-- Remove every binding (used by `run()` before the state loop starts). -/
def Errors.reset_all (_e : Errors) : Errors := ⟨[]⟩

/-- Lookup of the current error stored under `key`. -/
def Errors.get (e : Errors) (key : String) : Option String :=
  e.errors.lookup key

/-- Test used by the state tests: is an error recorded under `key`. -/
def Errors.has_error_for (e : Errors) (key : String) : Bool :=
  (e.errors.lookup key).isSome

/- ------------------------------------------------------------------
Detector data model and `add_category_id_to_detections`
(`detector/detector_node.py`, present in src lines 218 to 231).
------------------------------------------------------------------ -/

/-- Modelled from the spec: `Category {id, name}` of `data_classes`, §3 and
invariant 5 ("category identity is carried by `id`, not by `name`"); the file
is absent from src, but `detector_node.py` reads `category.id` and
`category.name`. -/
structure Category where
  id : String
  name : String
deriving Repr, DecidableEq

/-- Modelled from the spec: `ModelInformation {id, version, categories,
resolution}` of §3 (absent from src); `detector_node.py` reads
`model_info.categories`. -/
structure ModelInformation where
  id : String
  version : String
  categories : List Category
  resolution : Nat
deriving Repr, DecidableEq

/-- Modelled from the spec: a box detection record, §3 ("box, point, and
segmentation detection lists with `category_name`, `confidence`, optional
shape/coordinates"); `detector_node.py` reads and writes `category_name` and
`category_id`.  Confidence is kept as a natural percentage as the claims never
compute with it. -/
structure BoxDetection where
  category_name : String
  x : Int
  y : Int
  width : Int
  height : Int
  model_name : String
  confidence : Nat
  category_id : String
deriving Repr, DecidableEq

/-- Modelled from the spec: a point detection record, §3. -/
structure PointDetection where
  category_name : String
  x : Int
  y : Int
  model_name : String
  confidence : Nat
  category_id : String
deriving Repr, DecidableEq

/-- Point of a segmentation shape (`detector/segmentation_detection.py`). -/
structure Point where
  x : Int
  y : Int
deriving Repr, DecidableEq

/-- Shape of a segmentation detection (`detector/segmentation_detection.py`). -/
structure Shape where
  points : List Point
deriving Repr, DecidableEq

/-- Segmentation detection record (`detector/segmentation_detection.py`). -/
structure SegmentationDetection where
  category_name : String
  shape : Shape
  model_name : String
  confidence : Nat
  category_id : String
deriving Repr, DecidableEq

/-- Modelled from the spec: `Detections` of §3, the per-image box, point and
segmentation detection lists (`data_classes/detections.py` is absent from
src); `detector_node.py` iterates `detections.box_detections` and
`detections.point_detections`. -/
structure Detections where
  box_detections : List BoxDetection
  point_detections : List PointDetection
  segmentation_detections : List SegmentationDetection
deriving Repr, DecidableEq

/-- Inner helper `find_category_id_by_name` of
`DetectorNode.add_category_id_to_detections`: the ids of all categories whose
name equals `category_name`, first one if any, else the empty string. -/
def find_category_id_by_name (categories : List Category) (category_name : String) : String :=
  (((categories.filter (fun category => category.name == category_name)).map
      (fun category => category.id)).head?).getD ""

/-- Method `DetectorNode.add_category_id_to_detections`: overwrite `category_id` of
every box and point detection with the id found by name lookup over the
model's categories (segmentation detections are not touched by the source). -/
def add_category_id_to_detections (model_info : ModelInformation) (detections : Detections) :
    Detections :=
  { detections with
    box_detections := detections.box_detections.map
      (fun box_detection =>
        { box_detection with
          category_id := find_category_id_by_name model_info.categories box_detection.category_name })
    point_detections := detections.point_detections.map
      (fun point_detection =>
        { point_detection with
          category_id := find_category_id_by_name model_info.categories point_detection.category_name }) }

/- ------------------------------------------------------------------
TrainerLogic._upload_model_return_new_model_uuid
(`trainer/trainer_logic.py` lines 275 to 305).
------------------------------------------------------------------ -/

/-- Loop body of `_upload_model_return_new_model_uuid` over the format names
of the `files` dict.  `up fmt` stands for the awaited
`data_exchanger.upload_model_get_uuid(context, files, number, fmt)` result
(`none` models the server returning no uuid, upon which the source returns
`None` from the whole function at once).  The state threaded through is the
content of `model_upload_progress.json` (`already_uploaded_formats`); the
source appends the format and saves the file immediately after each
successful upload.  Returns the final progress list, the last received uuid
(`new_model_uuid`, `none` when nothing was uploaded or the early return was
taken) and the list of formats actually uploaded by this run, in order. -/
def upload_formats_loop (up : String → Option String) :
    List String → List String → Option String →
    List String × Option String × List String
  | [], progress, last => (progress, last, [])
  | file_format :: rest, progress, last =>
    if file_format ∈ progress then
      upload_formats_loop up rest progress last
    else
      match up file_format with
      | none => (progress, none, [])
      | some uuid =>
        let r := upload_formats_loop up rest (progress ++ [file_format]) (some uuid)
        (r.1, r.2.1, file_format :: r.2.2)

/-- Function `_upload_model_return_new_model_uuid`, reduced to its format loop: starts
with `new_model_uuid = None` and the progress list loaded from
`model_upload_progress.json`. -/
def upload_model_formats (up : String → Option String) (formats progress : List String) :
    List String × Option String × List String :=
  upload_formats_loop up formats progress none

/- ------------------------------------------------------------------
TrainerLogic._do_detections batching
(`trainer/trainer_logic.py` lines 343 to 357).
------------------------------------------------------------------ -/

/-- Loop of `_do_detections` over `range(0, num_images, batch_size)` with
`batch_size = 200`: each iteration runs inference (`det`) on the next slice
`images[i:i+200]` and saves the result under the running index `idx` before
the next slice is touched.  The returned list records the save calls in the
order the source performs them. -/
def detection_batch_loop {D : Type} (det : List String → List D) :
    List String → Nat → List (List D × Nat)
  | [], _ => []
  | img :: rest, idx =>
    (det ((img :: rest).take 200), idx) ::
      detection_batch_loop det ((img :: rest).drop 200) (idx + 1)
termination_by images _ => images.length
decreasing_by simp [List.length_drop]; omega

/-- Batching part of `_do_detections`: on an empty image list a single empty
batch is saved under index 0 and the loop body never runs; otherwise the
slices are processed starting at index 0. -/
def do_detections_saves {D : Type} (det : List String → List D) (images : List String) :
    List (List D × Nat) :=
  if images.isEmpty then [([], 0)]
  else detection_batch_loop det images 0

/- ------------------------------------------------------------------
Trainer state machine: mutable node state and the state handlers of
`trainer/trainer_logic.py`.
------------------------------------------------------------------ -/

/-- Executor wrapper state (`trainer/executor.py`): whether the supervised
subprocess is currently running, and whether `stop()` has been called on it
(graceful terminate, then kill). -/
structure ExecutorState where
  running : Bool
  stop_called : Bool
deriving Repr, DecidableEq

/-- Modelled from the spec: the durable files of §4.5 kept by
`last_training_io` and `ActiveTrainingIO` of `trainer/io_helpers.py` (absent
from src): the last-training marker, the saved detection batch indices,
the detection upload progress marker, the detections upload file index, the
model upload progress list, plus the training folder contents touched by
`_download_model`. -/
structure DiskState where
  last_training : Option Training
  detection_files : List Nat
  detection_upload_progress : Option Nat
  detections_upload_file_index : Option Nat
  model_upload_progress : List String
  training_folder_files : List String
deriving Repr, DecidableEq

/-- Mutable state of a `TrainerLogic` object as far as the claims reach:
the optional active training (`self._training`), the error map, the
executor, the shutdown event, whether a `run()` task has been scheduled on
the event loop, the folder the reconstructed `ActiveTrainingIO` helper is
bound to, and the disk. -/
structure TrainerLogicState where
  _training : Option Training
  errors : Errors
  _executor : Option ExecutorState
  shutdown_event : Bool
  run_scheduled : Bool
  active_training_folder : Option String
  disk : DiskState
deriving Repr, DecidableEq

/-- Modelled from the spec: `training_active` of
`trainer_logic_abstraction.py` (absent from src) is the "there is an active
training" test; the state tests observe it through `trainer._training is
None`. -/
def training_active (s : TrainerLogicState) : Bool :=
  s._training.isSome

/-- Assignment `self.active_training.training_state = st` (a no-op when no
training is active; the source property would raise instead). -/
def set_training_state (st : TrainerState) (s : TrainerLogicState) : TrainerLogicState :=
  { s with _training := s._training.map (fun t => { t with training_state := st }) }

/-- Assignment `self.active_training.model_id_for_detecting = uuid`. -/
def set_model_id_for_detecting (uuid : String) (s : TrainerLogicState) : TrainerLogicState :=
  { s with _training := s._training.map (fun t => { t with model_id_for_detecting := some uuid }) }

/-- Modelled from the spec: `last_training_io.save(self.active_training)`
writes the serialized `Training` to `last_training.json` (§4.5, atomic
write). -/
def save_last_training (s : TrainerLogicState) : TrainerLogicState :=
  { s with disk := { s.disk with last_training := s._training } }

/-- Error outcome of an awaited state handler: an ordinary exception with its
message, or a task cancellation. -/
inductive HandlerErr where
  | exn (msg : String)
  | cancelled
deriving Repr, DecidableEq

/-- Modelled from the spec: `perform_state(key, transitioning_state,
completed_state, fn)` of `trainer_logic_abstraction.py` (absent from src),
steps 1 to 5 of §4.7: record the transitioning state and persist, await the
handler; on success record the completed state, persist and reset the error
key; on an ordinary exception record the error under the key and persist the
previous state without raising; propagate cancellation (`Except.error ()`). -/
def perform_state (key : String) (transitioning_state completed_state : TrainerState)
    (handler : TrainerLogicState → Except HandlerErr TrainerLogicState)
    (s : TrainerLogicState) : Except Unit TrainerLogicState :=
  match s._training with
  | none => .ok s
  | some t =>
    let previous_state := t.training_state
    let s1 := save_last_training (set_training_state transitioning_state s)
    match handler s1 with
    | .ok s2 =>
        .ok { save_last_training (set_training_state completed_state s2) with
              errors := s2.errors.reset key }
    | .error (.exn msg) =>
        .ok (save_last_training (set_training_state previous_state
              { s1 with errors := s1.errors.set key msg }))
    | .error .cancelled => .error ()

/-- Handler selected by one iteration of `_run_training_loop` for a given
`training_state` (`trainer_logic.py` lines 110 to 131). -/
inductive StateHandler where
  | prepare
  | download_model
  | run_training
  | sync_confusion_matrix
  | upload_model
  | detecting
  | upload_detections
  | cleanup
deriving Repr, DecidableEq

/-- Dispatch table of `_run_training_loop`: which handler the loop invokes
for each observed state (`none` for the transitional states, which the loop
never dispatches on). -/
def run_training_loop_dispatch : TrainerState → Option StateHandler
  | .Initialized => some .prepare
  | .DataDownloaded => some .download_model
  | .TrainModelDownloaded => some .run_training
  | .TrainingFinished => some .sync_confusion_matrix
  | .ConfusionMatrixSynced => some .upload_model
  | .TrainModelUploaded => some .detecting
  | .Detected => some .upload_detections
  | .ReadyForCleanup => some .cleanup
  | _ => none

/-- Method `Executor.stop()`: graceful terminate (3s grace, then kill); afterwards
the subprocess is no longer running. -/
def ExecutorState.stop (e : ExecutorState) : ExecutorState :=
  { e with running := false, stop_called := true }

/-- Handler `TrainerLogic._download_model` (lines 141 to 152): when `base_model_id`
is a valid uuid the model archive is downloaded and extracted into the
training folder (`downloaded` stands for the file names the awaited
`data_exchanger.download_model` call adds, `model.json` among them) and
`model.json` is then renamed to `base_model.json`; otherwise nothing is done.
The handler itself never raises in the embedding (the download parameters
model a successful transfer; a failing transfer surfaces as `HandlerErr.exn`
through `perform_state`, see the error-handling claims). -/
def download_model_handler (downloaded : List String) (s : TrainerLogicState) :
    Except HandlerErr TrainerLogicState :=
  match s._training with
  | none => .error (.exn "model_id must be set")
  | some t =>
    if is_valid_uuid4 t.base_model_id then
      let files := (s.disk.training_folder_files ++ downloaded).map
        (fun f => if f = "model.json" then "base_model.json" else f)
      .ok { s with disk := { s.disk with training_folder_files := files } }
    else
      .ok s

/-- Outcome of the awaited `_upload_model_return_new_model_uuid(context)`
call inside `upload_model`: a returned value (possibly `None`), an ordinary
exception, or a cancellation. -/
inductive UploadOutcome where
  | result (uuid : Option String)
  | exn (msg : String)
  | cancelled
deriving Repr, DecidableEq

/-- Handler `TrainerLogic.upload_model` (lines 249 to 273).  Note that this handler
is invoked directly by `_run_training_loop` (line 124), not through
`perform_state`; it implements its own error confinement: remember the
previous state, set `TrainModelUploading`, await the upload; on `None` go
straight to `ReadyForCleanup` (returning from inside `try`, so the `else`
clause is skipped); on an ordinary exception record the error under
`upload_model` and fall back to the previous state without raising and
without saving; on success store the uuid, reset the error key, set
`TrainModelUploaded` and save; re-raise cancellation. -/
def upload_model (outcome : UploadOutcome) (s : TrainerLogicState) :
    Except Unit TrainerLogicState :=
  match s._training with
  | none => .ok s
  | some t =>
    let previous_state := t.training_state
    let s1 := set_training_state .TrainModelUploading s
    match outcome with
    | .result none => .ok (set_training_state .ReadyForCleanup s1)
    | .result (some uuid) =>
        let s2 := set_model_id_for_detecting uuid s1
        .ok (save_last_training (set_training_state .TrainModelUploaded
              { s2 with errors := s2.errors.reset "upload_model" }))
    | .exn msg =>
        .ok (set_training_state previous_state
              { s1 with errors := s1.errors.set "upload_model" msg })
    | .cancelled => .error ()

/-- Python truthiness of the `Optional[str]` returned by
`get_executor_error_from_log()`: `None` and the empty string are falsy. -/
def error_string_truthy : Option String → Bool
  | some e => e ≠ ""
  | none => false

/-- Handler `TrainerLogic._train` (lines 154 to 196), with the timed supervision
loop abstracted to its observable exit data: `running_after_supervision` is
what `executor.is_process_running()` returns once the loop has exited, and
`err` is what `get_executor_error_from_log()` returns at the post-loop check
(line 182).  Entry creates the executor and sets `TrainingRunning`; a truthy
error string is recorded under `run_training` and a `TrainingError` is
raised, which the handler's own `except TrainingError` turns into: stop the
executor if it is still running, set the state back to the hard-coded
`previous_state = TrainModelDownloaded`, re-raise.  The second component
reports the re-raised exception (swallowed one level up by
`perform_state`). -/
def train_handler (running_after_supervision : Bool) (err : Option String)
    (s : TrainerLogicState) : TrainerLogicState × Option HandlerErr :=
  let s1 := set_training_state .TrainingRunning
    { s with _executor := some ⟨true, false⟩ }
  let s2 := { s1 with _executor := some ⟨running_after_supervision, false⟩ }
  match err with
  | some e =>
    if e ≠ "" then
      let s3 := { s2 with errors := s2.errors.set "run_training" e }
      let s4 :=
        if running_after_supervision then
          { s3 with _executor := some (ExecutorState.stop ⟨running_after_supervision, false⟩) }
        else s3
      (set_training_state .TrainModelDownloaded s4, some (.exn e))
    else (s2, none)
  | none => (s2, none)

/-- Coroutine selected by `TrainerLogic._start_training`
(lines 198 to 210). -/
inductive StartTask where
  | resume_training
  | from_scratch (base_model_id : String)
  | from_existing_model
deriving Repr, DecidableEq

/-- Selection logic of `_start_training`: `resume()` when `can_resume()`,
else `start_training_from_scratch(base_model_id)` for any `base_model_id`
that is not a valid uuid, else `start_training()`. -/
def start_training_choice (can_resume : Bool) (base_model_id : String) : StartTask :=
  if can_resume then .resume_training
  else if !(is_valid_uuid4 base_model_id) then .from_scratch base_model_id
  else .from_existing_model

/-- Modelled from the spec: `PretrainedModel {name, label, description}`
(§4.8; the data class is absent from src). -/
structure PretrainedModel where
  name : String
  label : String
  description : String
deriving Repr, DecidableEq

/-- Method `TrainerLogic._start_training` as a state function: it only chooses and
awaits the task coroutine; in particular it never touches the error map.
Returns `none` when no training is active (the source property would
raise). -/
def start_training_select (can_resume : Bool) (s : TrainerLogicState) :
    TrainerLogicState × Option StartTask :=
  match s._training with
  | none => (s, none)
  | some t => (s, some (start_training_choice can_resume t.base_model_id))

/-- Method `TrainerLogic.init_from_last_training` (lines 74 to 78): load the
persisted `Training` from `last_training.json` and reconstruct the
`ActiveTrainingIO` helper on its training folder.  When the marker is absent
the source load would fail; callers guard on `exists()`. -/
def init_from_last_training (s : TrainerLogicState) : TrainerLogicState :=
  match s.disk.last_training with
  | some t => { s with _training := some t, active_training_folder := some t.training_folder }
  | none => s

/-- Method `TrainerLogic.try_continue_run_if_incomplete` (lines 66 to 72): exactly
when no training is active and the last-training marker exists, restore the
training, reconstruct the helper and schedule `run()`, returning `True`;
otherwise return `False` and change nothing. -/
def try_continue_run_if_incomplete (s : TrainerLogicState) : Bool × TrainerLogicState :=
  if !(training_active s) && s.disk.last_training.isSome then
    (true, { init_from_last_training s with run_scheduled := true })
  else
    (false, s)

/-- Method `TrainerLogic.clear_training` (lines 359 to 368): delete the detection
batch files, the detection upload progress marker, the detections upload
file index, run the implementation hook `clear_training_data` (abstract, not
modelled), delete the last-training marker, send a status and drop the
active training. -/
def clear_training (s : TrainerLogicState) : TrainerLogicState :=
  { s with
    _training := none,
    disk := { s.disk with
      detection_files := [],
      detection_upload_progress := none,
      detections_upload_file_index := none,
      last_training := none } }

/-- Branch `except asyncio.CancelledError` of `TrainerLogic.run` (lines 91
to 96): when the shutdown event is not set, record `ReadyForCleanup`,
persist the training, and run `clear_training`; when shutdown is in
progress, do nothing. -/
def run_on_cancelled (s : TrainerLogicState) : TrainerLogicState :=
  if s.shutdown_event then s
  else clear_training (save_last_training (set_training_state .ReadyForCleanup s))

/- ------------------------------------------------------------------
Concrete sample inputs used by witnesses.
------------------------------------------------------------------ -/

/-- Sample context (the organization/project used throughout the tests). -/
def sampleContext : Context := ⟨"zauberzeug", "demo"⟩

/-- Sample active training at the `ConfusionMatrixSynced` state. -/
def sampleTraining : Training :=
  { id := "some-training-uuid"
    context := sampleContext
    training_number := 0
    base_model_id := "917d5c7f-403d-7e92-f95f-577f79c2273a"
    training_state := .ConfusionMatrixSynced
    model_id_for_detecting := none
    training_folder := "/data/zauberzeug/demo/trainings/some-training-uuid" }

/-- Sample trainer state whose disk agrees with the active training. -/
def sampleState : TrainerLogicState :=
  { _training := some sampleTraining
    errors := ⟨[]⟩
    _executor := none
    shutdown_event := false
    run_scheduled := false
    active_training_folder := some sampleTraining.training_folder
    disk :=
      { last_training := some sampleTraining
        detection_files := [0, 1]
        detection_upload_progress := some 1
        detections_upload_file_index := some 1
        model_upload_progress := []
        training_folder_files := ["hyp.yaml"] } }

/- ------------------------------------------------------------------
Theorems.
------------------------------------------------------------------ -/

/-- Spec-side lookup of C9: the id of the first category whose name equals
`n`, or the empty string when no category of that name exists. -/
def first_category_id_with_name (cats : List Category) (n : String) : String :=
  match cats.find? (fun c => c.name == n) with
  | some c => c.id
  | none => ""

lemma find_category_id_eq_first_match (cats : List Category) (n : String) :
    find_category_id_by_name cats n = first_category_id_with_name cats n := by
  induction cats with
  | nil => rfl
  | cons c rest ih =>
    by_cases h : c.name == n
    · simp [find_category_id_by_name, first_category_id_with_name, List.find?, h]
    · simp only [find_category_id_by_name, List.filter, h] at ih ⊢
      simpa [first_category_id_with_name, List.find?, h] using ih

/-- C9: after `add_category_id_to_detections`, every box and every point
detection carries, in place and in order, the `category_id` of the first
category of the model whose name equals the detection's `category_name`, or
the empty string when no category of that name exists; the lookup is by
name, not by list position. -/
theorem add_category_id_is_lookup_by_name (mi : ModelInformation) (dets : Detections) :
    ((add_category_id_to_detections mi dets).box_detections.map
        (fun d => (d.category_name, d.category_id))
      = dets.box_detections.map
        (fun d => (d.category_name, first_category_id_with_name mi.categories d.category_name))) ∧
    ((add_category_id_to_detections mi dets).point_detections.map
        (fun d => (d.category_name, d.category_id))
      = dets.point_detections.map
        (fun d => (d.category_name, first_category_id_with_name mi.categories d.category_name))) ∧
    (add_category_id_to_detections mi dets).segmentation_detections
      = dets.segmentation_detections := by
  refine ⟨?_, ?_, rfl⟩ <;>
    simp [add_category_id_to_detections, find_category_id_eq_first_match]

lemma Errors.get_set (e : Errors) (k v : String) : (e.set k v).get k = some v := by
  simp [Errors.set, Errors.get, List.lookup]

/-- C4: `try_continue_run_if_incomplete` returns `True`, loads the persisted
`Training` from the marker, reconstructs the `ActiveTrainingIO` helper on
the restored training folder and schedules `run()` exactly when no training
is active and the marker file exists; in every other case it returns `False`
and leaves the state unchanged. -/
theorem try_continue_run_iff (s : TrainerLogicState) :
    (∀ t : Training, s._training = none → s.disk.last_training = some t →
        try_continue_run_if_incomplete s =
          (true, { s with _training := some t,
                          active_training_folder := some t.training_folder,
                          run_scheduled := true })) ∧
    ((s._training.isSome ∨ s.disk.last_training = none) →
        try_continue_run_if_incomplete s = (false, s)) := by
  constructor
  · intro t h1 h2
    simp [try_continue_run_if_incomplete, training_active, h1, h2, init_from_last_training]
  · rintro (h | h) <;>
      simp [try_continue_run_if_incomplete, training_active, h]

/-- Witness for C4 at a concrete idle node with a marker on disk, and at the
same node with a training already active. -/
theorem try_continue_run_iff_witness :
    try_continue_run_if_incomplete { sampleState with _training := none } =
      (true, { { sampleState with _training := none } with
               _training := some sampleTraining,
               active_training_folder := some sampleTraining.training_folder,
               run_scheduled := true }) ∧
    try_continue_run_if_incomplete sampleState = (false, sampleState) :=
  ⟨(try_continue_run_iff { sampleState with _training := none }).1 sampleTraining rfl rfl,
   (try_continue_run_iff sampleState).2 (Or.inl (by decide))⟩

/-- C5: when `run()` catches the cancellation of the training task while the
shutdown event is not set, it sets the state to `ReadyForCleanup`, persists
that training, and runs `clear_training`; afterwards no training is active
and the last-training marker, the detection batch files and the detection
upload progress and file-index markers are gone. -/
theorem run_cancelled_cleans_up (s : TrainerLogicState) (t : Training)
    (h1 : s.shutdown_event = false) (h2 : s._training = some t) :
    run_on_cancelled s
      = clear_training (save_last_training (set_training_state .ReadyForCleanup s)) ∧
    (save_last_training (set_training_state .ReadyForCleanup s)).disk.last_training
      = some { t with training_state := .ReadyForCleanup } ∧
    (run_on_cancelled s)._training = none ∧
    (run_on_cancelled s).disk.last_training = none ∧
    (run_on_cancelled s).disk.detection_files = [] ∧
    (run_on_cancelled s).disk.detection_upload_progress = none ∧
    (run_on_cancelled s).disk.detections_upload_file_index = none := by
  simp [run_on_cancelled, h1, h2, clear_training, save_last_training, set_training_state]

/-- Witness for C5 at the concrete sample state (shutdown not set, active
training and detection artifacts present). -/
theorem run_cancelled_cleans_up_witness :
    run_on_cancelled sampleState
      = clear_training (save_last_training (set_training_state .ReadyForCleanup sampleState)) ∧
    (save_last_training (set_training_state .ReadyForCleanup sampleState)).disk.last_training
      = some { sampleTraining with training_state := .ReadyForCleanup } ∧
    (run_on_cancelled sampleState)._training = none ∧
    (run_on_cancelled sampleState).disk.last_training = none ∧
    (run_on_cancelled sampleState).disk.detection_files = [] ∧
    (run_on_cancelled sampleState).disk.detection_upload_progress = none ∧
    (run_on_cancelled sampleState).disk.detections_upload_file_index = none :=
  run_cancelled_cleans_up sampleState sampleTraining rfl rfl

/-- C10: when `_upload_model_return_new_model_uuid` returns `None`,
`upload_model` records no error, leaves `model_id_for_detecting` unset, and
jumps directly to `ReadyForCleanup` (the `else` clause that would mark
`TrainModelUploaded` is skipped by the early return), so the loop's next
dispatch is the cleanup handler: upload and detection phases are skipped. -/
theorem upload_model_no_files_skips_to_cleanup (s : TrainerLogicState) (t : Training)
    (h1 : s._training = some t) (h2 : t.model_id_for_detecting = none) :
    upload_model (.result none) s = .ok (set_training_state .ReadyForCleanup s) ∧
    (set_training_state .ReadyForCleanup s).errors = s.errors ∧
    (set_training_state .ReadyForCleanup s)._training
      = some { t with training_state := .ReadyForCleanup } ∧
    ({ t with training_state := .ReadyForCleanup }).model_id_for_detecting = none ∧
    (set_training_state .ReadyForCleanup s).disk = s.disk ∧
    run_training_loop_dispatch .ReadyForCleanup = some .cleanup := by
  refine ⟨?_, rfl, ?_, by simpa using h2, rfl, rfl⟩ <;>
    simp [upload_model, h1, set_training_state]

/-- Witness for C10 at the concrete sample state (no model id set yet). -/
theorem upload_model_no_files_skips_to_cleanup_witness :
    upload_model (.result none) sampleState
      = .ok (set_training_state .ReadyForCleanup sampleState) ∧
    (set_training_state .ReadyForCleanup sampleState).errors = sampleState.errors ∧
    (set_training_state .ReadyForCleanup sampleState)._training
      = some { sampleTraining with training_state := .ReadyForCleanup } ∧
    ({ sampleTraining with training_state := .ReadyForCleanup }).model_id_for_detecting = none ∧
    (set_training_state .ReadyForCleanup sampleState).disk = sampleState.disk ∧
    run_training_loop_dispatch .ReadyForCleanup = some .cleanup :=
  upload_model_no_files_skips_to_cleanup sampleState sampleTraining rfl rfl

/-- C1: when the upload inside `upload_model` raises an ordinary exception,
the exception does not escape the handler; the message is recorded under the
`upload_model` key, the training state is back at the value it had before
the handler started (`ConfusionMatrixSynced`), the persisted training still
holds that previous state (the handler writes nothing to disk in this
branch; the marker written when `ConfusionMatrixSynced` was completed is
still in place, carried here as hypothesis `h3`), and the loop's dispatch
for `ConfusionMatrixSynced` is `upload_model` again, so the next tick
retries the same handler. -/
theorem upload_model_error_confined (s : TrainerLogicState) (t : Training) (msg : String)
    (h1 : s._training = some t)
    (h2 : t.training_state = .ConfusionMatrixSynced)
    (h3 : s.disk.last_training = some t) :
    ∃ s', upload_model (.exn msg) s = .ok s' ∧
      s'.errors.get "upload_model" = some msg ∧
      s'._training = some t ∧
      s'.disk.last_training = some t ∧
      t.training_state = .ConfusionMatrixSynced ∧
      run_training_loop_dispatch .ConfusionMatrixSynced = some .upload_model := by
  obtain ⟨tr, errs, ex, sd, rs, af, dsk⟩ := s
  dsimp only at h1 h3
  subst h1
  refine ⟨_, rfl, ?_, ?_, ?_, h2, rfl⟩
  · simp [set_training_state, Errors.get_set]
  · simp [set_training_state]
  · simpa [set_training_state] using h3

/-- Witness for C1 at the concrete sample state (entry at
`ConfusionMatrixSynced`, marker in sync with the active training). -/
theorem upload_model_error_confined_witness :
    ∃ s', upload_model (.exn "MockLoop returned 500") sampleState = .ok s' ∧
      s'.errors.get "upload_model" = some "MockLoop returned 500" ∧
      s'._training = some sampleTraining ∧
      s'.disk.last_training = some sampleTraining ∧
      sampleTraining.training_state = .ConfusionMatrixSynced ∧
      run_training_loop_dispatch .ConfusionMatrixSynced = some .upload_model :=
  upload_model_error_confined sampleState sampleTraining "MockLoop returned 500" rfl rfl rfl

/-- C2: when the supervision of the training subprocess ends with
`get_executor_error_from_log()` returning a non-empty string, `_train` stops
the executor exactly when its process is still running, records the string
under the `run_training` key, sets the state back to `TrainModelDownloaded`
and re-raises (the raise is swallowed one level up), and the loop's dispatch
for `TrainModelDownloaded` is `run_training` again: the next tick retries. -/
theorem train_error_stops_and_reverts (s : TrainerLogicState) (t : Training)
    (e : String) (running : Bool)
    (h1 : s._training = some t) (h2 : e ≠ "") :
    (train_handler running (some e) s).1.errors.get "run_training" = some e ∧
    (train_handler running (some e) s).1._training
      = some { t with training_state := .TrainModelDownloaded } ∧
    (train_handler running (some e) s).1._executor = some ⟨false, running⟩ ∧
    (train_handler running (some e) s).2 = some (.exn e) ∧
    run_training_loop_dispatch .TrainModelDownloaded = some .run_training := by
  cases running <;>
    simp [train_handler, h1, h2, set_training_state, ExecutorState.stop, Errors.get_set,
          run_training_loop_dispatch]

/-- Witness for C2 at the concrete sample state with the log reporting
`CUDA OOM` while the subprocess is still alive. -/
theorem train_error_stops_and_reverts_witness :
    (train_handler true (some "CUDA OOM") sampleState).1.errors.get "run_training"
      = some "CUDA OOM" ∧
    (train_handler true (some "CUDA OOM") sampleState).1._training
      = some { sampleTraining with training_state := .TrainModelDownloaded } ∧
    (train_handler true (some "CUDA OOM") sampleState).1._executor = some ⟨false, true⟩ ∧
    (train_handler true (some "CUDA OOM") sampleState).2 = some (.exn "CUDA OOM") ∧
    run_training_loop_dispatch .TrainModelDownloaded = some .run_training :=
  train_error_stops_and_reverts sampleState sampleTraining "CUDA OOM" true rfl (by decide)

/-- Counterexample for C6: a `base_model_id` that is neither a uuid nor the
name of any provided pretrained model is still handed to
`start_training_from_scratch`, with no `start_training` error recorded — the
selection in `_start_training` only tests `is_valid_uuid4` and never
consults `provided_pretrained_models`. -/
theorem start_training_unknown_name_goes_from_scratch :
    start_training_select false
        { sampleState with _training := some { sampleTraining with base_model_id := "unknown-model" } }
      = ({ sampleState with _training := some { sampleTraining with base_model_id := "unknown-model" } },
         some (.from_scratch "unknown-model")) ∧
    is_valid_uuid4 "unknown-model" = false ∧
    ([⟨"tiny", "Tiny", "small pretrained net"⟩] : List PretrainedModel).all
        (fun m => m.name ≠ "unknown-model") = true ∧
    ({ sampleState with _training := some { sampleTraining with base_model_id := "unknown-model" } }).errors.get
        "start_training" = none := by
  refine ⟨?_, by decide, by decide, rfl⟩
  simp [start_training_select, start_training_choice, is_valid_uuid4, isHexDigit]

/-- C6 as amended: when `can_resume()` is false, every `base_model_id` that
is not a valid uuid — whether or not its name appears in
`provided_pretrained_models` — is passed to
`start_training_from_scratch(base_model_id)`, and the selection records no
error. -/
theorem start_training_non_uuid_from_scratch (s : TrainerLogicState) (t : Training)
    (h1 : s._training = some t) (h2 : is_valid_uuid4 t.base_model_id = false) :
    start_training_select false s = (s, some (.from_scratch t.base_model_id)) ∧
    (start_training_select false s).1.errors = s.errors := by
  have h3 : start_training_select false s = (s, some (.from_scratch t.base_model_id)) := by
    simp [start_training_select, start_training_choice, h1, h2]
  exact ⟨h3, by rw [h3]⟩

/-- Witness for the amended C6 at a pretrained-model name (`tiny`). -/
theorem start_training_non_uuid_from_scratch_witness :
    start_training_select false
        { sampleState with _training := some { sampleTraining with base_model_id := "tiny" } }
      = ({ sampleState with _training := some { sampleTraining with base_model_id := "tiny" } },
         some (.from_scratch "tiny")) ∧
    (start_training_select false
        { sampleState with _training := some { sampleTraining with base_model_id := "tiny" } }).1.errors
      = ({ sampleState with _training := some { sampleTraining with base_model_id := "tiny" } }).errors :=
  start_training_non_uuid_from_scratch _ { sampleTraining with base_model_id := "tiny" } rfl (by decide)

/-- C7: wrapped in `perform_state`, `_download_model` downloads and extracts
the archive and renames `model.json` to `base_model.json` exactly when
`base_model_id` is a valid uuid, leaves the folder untouched otherwise, and
in both cases the training advances to `TrainModelDownloaded` (and that
state is persisted). -/
theorem download_model_only_for_uuid (s : TrainerLogicState) (t : Training)
    (downloaded : List String) (h : s._training = some t) :
    match perform_state "download_model" .TrainModelDownloading .TrainModelDownloaded
            (download_model_handler downloaded) s with
    | .ok s' =>
      s'._training = some { t with training_state := .TrainModelDownloaded } ∧
      s'.disk.last_training = some { t with training_state := .TrainModelDownloaded } ∧
      (is_valid_uuid4 t.base_model_id = true →
        s'.disk.training_folder_files
          = (s.disk.training_folder_files ++ downloaded).map
              (fun f => if f = "model.json" then "base_model.json" else f)) ∧
      (is_valid_uuid4 t.base_model_id = false →
        s'.disk.training_folder_files = s.disk.training_folder_files)
    | .error _ => False := by
  obtain ⟨tr, errs, ex, sd, rs, af, dsk⟩ := s
  dsimp only at h
  subst h
  by_cases hv : is_valid_uuid4 t.base_model_id <;>
    simp [perform_state, download_model_handler, save_last_training,
          set_training_state, hv]

/-- Witness for C7 at the concrete sample state, whose `base_model_id` is a
valid uuid, with an archive containing `model.json` and a weight file. -/
theorem download_model_only_for_uuid_witness :
    match perform_state "download_model" .TrainModelDownloading .TrainModelDownloaded
            (download_model_handler ["model.json", "model.pt"]) sampleState with
    | .ok s' =>
      s'._training = some { sampleTraining with training_state := .TrainModelDownloaded } ∧
      s'.disk.last_training
        = some { sampleTraining with training_state := .TrainModelDownloaded } ∧
      (is_valid_uuid4 sampleTraining.base_model_id = true →
        s'.disk.training_folder_files
          = (sampleState.disk.training_folder_files ++ ["model.json", "model.pt"]).map
              (fun f => if f = "model.json" then "base_model.json" else f)) ∧
      (is_valid_uuid4 sampleTraining.base_model_id = false →
        s'.disk.training_folder_files = sampleState.disk.training_folder_files)
    | .error _ => False :=
  download_model_only_for_uuid sampleState sampleTraining ["model.json", "model.pt"] rfl

lemma upload_formats_loop_progress (up : String → Option String) :
    ∀ (formats progress : List String) (last : Option String),
      (upload_formats_loop up formats progress last).1
        = progress ++ (upload_formats_loop up formats progress last).2.2 := by
  intro formats
  induction formats with
  | nil => intro progress last; simp [upload_formats_loop]
  | cons f rest ih =>
    intro progress last
    by_cases hf : f ∈ progress
    · simp [upload_formats_loop, hf, ih]
    · cases hu : up f with
      | none => simp [upload_formats_loop, hf, hu]
      | some uuid => simp [upload_formats_loop, hf, hu, ih]

lemma upload_formats_loop_skips (up : String → Option String) :
    ∀ (formats progress : List String) (last : Option String) (f : String),
      f ∈ progress → f ∉ (upload_formats_loop up formats progress last).2.2 := by
  intro formats
  induction formats with
  | nil => intro progress last f hf; simp [upload_formats_loop]
  | cons g rest ih =>
    intro progress last f hf
    by_cases hg : g ∈ progress
    · simpa [upload_formats_loop, hg] using ih progress last f hf
    · cases hu : up g with
      | none => simp [upload_formats_loop, hg, hu]
      | some uuid =>
        have h1 : f ≠ g := fun hfg => hg (hfg ▸ hf)
        have h2 := ih (progress ++ [g]) (some uuid) f (List.mem_append_left _ hf)
        simp [upload_formats_loop, hg, hu, h1, h2]

/-- C3: in `_upload_model_return_new_model_uuid`, a format already listed in
the model-upload-progress file is skipped, every format that does get
uploaded is appended to the progress file (the final progress list is the
initial one plus exactly the formats uploaded by this run, in order), and a
second run starting from the resulting progress file re-uploads none of the
formats the first run uploaded. -/
theorem upload_model_formats_at_most_once (up1 up2 : String → Option String)
    (formats progress : List String) :
    (∀ f ∈ progress, f ∉ (upload_model_formats up1 formats progress).2.2) ∧
    (upload_model_formats up1 formats progress).1
      = progress ++ (upload_model_formats up1 formats progress).2.2 ∧
    (∀ f ∈ (upload_model_formats up1 formats progress).2.2,
        f ∉ (upload_model_formats up2 formats
              (upload_model_formats up1 formats progress).1).2.2) := by
  refine ⟨fun f hf => upload_formats_loop_skips up1 formats progress none f hf,
          upload_formats_loop_progress up1 formats progress none,
          fun f hf => ?_⟩
  apply upload_formats_loop_skips up2 formats _ none f
  rw [upload_model_formats, upload_formats_loop_progress up1 formats progress none]
  exact List.mem_append_right _ hf

/-- Witness for C3: with two formats and the first already recorded, the
second run after a completed first run uploads nothing for `wts`. -/
theorem upload_model_formats_at_most_once_witness :
    "wts" ∉ (upload_model_formats (fun f => some ("u2-" ++ f)) ["pytorch", "wts"]
        (upload_model_formats (fun f => some ("u1-" ++ f)) ["pytorch", "wts"] ["pytorch"]).1).2.2 :=
  (upload_model_formats_at_most_once (fun f => some ("u1-" ++ f)) (fun f => some ("u2-" ++ f))
      ["pytorch", "wts"] ["pytorch"]).2.2 "wts" (by decide)

lemma detection_batch_loop_getD {D : Type} (det : List String → List D)
    (l : List String) (idx : Nat) :
    ∀ k : Nat, 200 * k < l.length →
      (detection_batch_loop det l idx).getD k ([], 0)
        = (det ((l.drop (200 * k)).take 200), idx + k) := by
  induction l, idx using detection_batch_loop.induct det with
  | case1 idx => intro k hk; simp at hk
  | case2 img rest idx ih =>
    intro k hk
    match k with
    | 0 => simp [detection_batch_loop]
    | k + 1 =>
      rw [detection_batch_loop]
      have hk' : 200 * k < ((img :: rest).drop 200).length := by
        simp only [List.length_drop]
        simp only [List.length_cons] at hk ⊢
        omega
      simp only [List.getD_cons_succ]
      rw [ih k hk', List.drop_drop, show 200 + 200 * k = 200 * (k + 1) by ring]
      congr 1
      omega

lemma detection_batch_loop_length {D : Type} (det : List String → List D)
    (l : List String) (idx : Nat) :
    ∀ k : Nat, (k < (detection_batch_loop det l idx).length ↔ 200 * k < l.length) := by
  induction l, idx using detection_batch_loop.induct det with
  | case1 idx => intro k; simp [detection_batch_loop]
  | case2 img rest idx ih =>
    intro k
    rw [detection_batch_loop]
    match k with
    | 0 => simp
    | k + 1 =>
      simp only [List.length_cons, Nat.add_lt_add_iff_right]
      rw [ih k]
      simp only [List.length_drop, List.length_cons]
      omega

/-- C8: `_do_detections` saves exactly the consecutive slices
`images[200*k : 200*k + 200]` of the image list, under the ascending batch
indices `k = 0, 1, ...` in the order the slices occur; an index is saved
exactly when `200*k` is below the number of images; and an empty image list
produces the single empty batch at index 0. -/
theorem do_detections_batching {D : Type} (det : List String → List D) (images : List String) :
    (images = [] → do_detections_saves det images = [([], 0)]) ∧
    (images ≠ [] →
      (∀ k, k < (do_detections_saves det images).length ↔ 200 * k < images.length) ∧
      (∀ k, 200 * k < images.length →
        (do_detections_saves det images).getD k ([], 0)
          = (det ((images.drop (200 * k)).take 200), k))) := by
  constructor
  · intro h; subst h; rfl
  · intro h
    have he : images.isEmpty = false := by simpa using h
    refine ⟨fun k => ?_, fun k hk => ?_⟩
    · simpa [do_detections_saves, he] using detection_batch_loop_length det images 0 k
    · simpa [do_detections_saves, he] using detection_batch_loop_getD det images 0 k hk

/-- Witness for C8: the empty run saves one empty batch at index 0, and a
one-image run saves that image as batch 0. -/
theorem do_detections_batching_witness :
    do_detections_saves (fun l => l) ([] : List String) = [([], 0)] ∧
    (do_detections_saves (fun l => l) ["img1"]).getD 0 ([], 0) = (["img1"], 0) :=
  ⟨(do_detections_batching (fun l => l) []).1 rfl,
   by
     have h := ((do_detections_batching (fun l => l) ["img1"]).2 (by decide)).2 0 (by decide)
     simpa using h⟩

end LearningLoopNode
